import Mathlib

/-!
# Verification of the fraunhofer-prototype persistence core

Shallow embedding of `src/backend/main.py` (FastAPI backend of the
scheduling/notes prototype).  Each HTTP handler performs a
load–mutate–replace cycle on one JSON file; we embed the pure mutation
each handler applies to the in-memory document, together with the
normalisation the `_read_*` helpers apply to raw file contents.

Conventions:
* Python `dict`s with string keys that preserve insertion order are
  embedded as association lists `List (String × _)`; keys are unique in
  every state the program produces, and the embedded update/delete
  operations mirror Python `d[k] = v` / `del d[k]` on such lists.
* Machine integers are embedded as `Int` (Python ints are unbounded).
* A handler that raises `HTTPException` is embedded as a function into
  `Except ErrKind _`; an `.error` result is raised before the `_write_*`
  call, so the persisted document is unchanged exactly when the result
  is an error.
* FastAPI/pydantic request validation that a claim depends on is
  embedded explicitly (see `createNoteValid`).
-/

namespace Backend

/-- The failure kinds the handlers can raise at the HTTP boundary:
`notFound` (404), `conflict` (400, overlapping event),
`invalidCategory` (400, bad action-item category), and
`validationError` (422, pydantic request-model rejection). -/
inductive ErrKind where
  | notFound
  | conflict
  | invalidCategory
  | validationError
deriving DecidableEq, Repr

/-- `class Event` (main.py lines 31-41): pydantic model with
`title` (min_length 1), optional `description`, `hour` in `[0,23]`,
`duration` in `[1,24]`. -/
structure Event where
  title : String
  description : String
  hour : Int
  duration : Int
deriving DecidableEq, Repr

/-- The events document: a JSON object mapping day names to lists of
events, embedded as an insertion-ordered association list
(Python `Dict[str, List[dict]]`). -/
abbrev EventsDoc := List (String × List Event)

/-- `d.get(k)` / `k in d` on a Python dict: first (unique) matching key. -/
def lookupKey {α : Type} : List (String × α) → String → Option α
  | [], _ => none
  | (k', v) :: rest, k => if k' = k then some v else lookupKey rest k

/-- `d[k] = v` on a Python dict: replace the value at `k` in place if the
key is present, otherwise append the new key at the end (insertion
order). -/
def setKey {α : Type} : List (String × α) → String → α → List (String × α)
  | [], k, v => [(k, v)]
  | (k', v') :: rest, k, v =>
      if k' = k then (k, v) :: rest else (k', v') :: setKey rest k v

/-- `del d[k]` on a Python dict.  Keys are unique in every document the
program writes, so deleting the key is the same as filtering it out. -/
def removeKey {α : Type} (d : List (String × α)) (k : String) : List (String × α) :=
  d.filter (fun p => !(p.1 = k))

/-- The overlap scan of `add_event` (main.py lines 296-301): the
candidate `(new_start, new_end)` conflicts with an existing event iff
`new_start < existing_end and new_end > existing_start`. -/
def hasConflict (e : Event) (existing : List Event) : Bool :=
  existing.any (fun ex =>
    decide (e.hour < ex.hour + ex.duration) && decide (e.hour + e.duration > ex.hour))

/-- `add_event` handler (main.py lines 286-311): read the document, take
the day's current list (`data.get(day_key, [])`), scan it for an
overlap, raise 400 on the first conflict found, otherwise append the new
event at the end of the day's list and persist. -/
def add_event (doc : EventsDoc) (day : String) (e : Event) : Except ErrKind EventsDoc :=
  let dayEvents := (lookupKey doc day).getD []
  if hasConflict e dayEvents then
    .error .conflict
  else
    .ok (setKey doc day (dayEvents ++ [e]))

/-- `delete_event` handler (main.py lines 314-336): 404 if the day is
absent or the index is outside `[0, len)`; otherwise delete the entry at
`index`, and drop the day key entirely if its list became empty. -/
def delete_event (doc : EventsDoc) (day : String) (index : Int) : Except ErrKind EventsDoc :=
  match lookupKey doc day with
  | none => .error .notFound
  | some dayEvents =>
    if index < 0 ∨ (dayEvents.length : Int) ≤ index then
      .error .notFound
    else
      let remaining := dayEvents.eraseIdx index.toNat
      if remaining.length = 0 then
        .ok (removeKey doc day)
      else
        .ok (setKey doc day remaining)

/-- Interleaved execution of two concurrent `add_event` transactions on
the same initial file state.  `_file_lock` is taken separately inside
`_read_events` (main.py lines 71-87) and `_write_events` (lines 89-91);
`add_event` holds no lock of its own across its load–mutate–replace
cycle, so the schedule read₁ ; read₂ ; write₁ ; write₂ is permitted by
the locking discipline.  Each transaction validates and computes its new
document against its own snapshot `st0` and then overwrites the whole
file with it; the triple returned is (response of call 1, response of
call 2, final file contents). -/
def add_event_race (st0 : EventsDoc) (day : String) (e1 e2 : Event) :
    Except ErrKind EventsDoc × Except ErrKind EventsDoc × EventsDoc :=
  let r1 := add_event st0 day e1
  let r2 := add_event st0 day e2
  let afterW1 := match r1 with | .ok d => d | .error _ => st0
  let afterW2 := match r2 with | .ok d => d | .error _ => afterW1
  (r1, r2, afterW2)

/-- `class Note` (main.py lines 95-98) as `_read_notes` normalises it:
integer `id`, string `text`, string `category`. -/
structure Note where
  id : Int
  text : String
  category : String
deriving DecidableEq, Repr

/-- The notes document `{"notes": [...], "next_id": n}` (main.py line 64). -/
structure NotesDoc where
  notes : List Note
  next_id : Int
deriving DecidableEq, Repr

/-- `create_note` handler body (main.py lines 357-367): append
`{id: next_id, text, category}` and increment `next_id`. -/
def create_note (doc : NotesDoc) (text category : String) : NotesDoc :=
  { notes := doc.notes ++ [{ id := doc.next_id, text := text, category := category }],
    next_id := doc.next_id + 1 }

/-- The category pattern `^(personal|work|free time)$` of
`CreateNoteRequest` / `UpdateNoteRequest` / `Note` (main.py lines 98,
354, 372). -/
def validNoteCategory (category : String) : Bool :=
  category == "personal" || category == "work" || category == "free time"

/-- Pydantic validation of `CreateNoteRequest` (main.py lines 352-354):
`text` is capped at 10000 characters and `category` must match the
pattern; FastAPI rejects a non-matching body with 422 before the handler
runs. -/
def createNoteValid (text category : String) : Bool :=
  decide (text.length ≤ 10000) && validNoteCategory category

/-- `POST /notes` as a whole: request-model validation followed by the
`create_note` handler body. -/
def create_note_endpoint (doc : NotesDoc) (text category : String) :
    Except ErrKind NotesDoc :=
  if createNoteValid text category then .ok (create_note doc text category)
  else .error .validationError

/-- The `for n in notes: ... break` loop of `update_note` (main.py lines
379-385): mutate the first note whose id matches and report whether one
was found. -/
def updateFirst : List Note → Int → String → String → List Note × Bool
  | [], _, _, _ => ([], false)
  | n :: rest, noteId, text, category =>
    if n.id = noteId then
      ({ n with text := text, category := category } :: rest, true)
    else
      let res := updateFirst rest noteId text category
      (n :: res.1, res.2)

/-- `update_note` handler (main.py lines 375-389): 404 if no note has the
id, otherwise replace `text`/`category` of the first matching note in
place. -/
def update_note (doc : NotesDoc) (noteId : Int) (text category : String) :
    Except ErrKind NotesDoc :=
  let res := updateFirst doc.notes noteId text category
  if res.2 then .ok { doc with notes := res.1 } else .error .notFound

/-- `delete_note` handler (main.py lines 392-401): keep the notes whose
id differs; 404 if that removes nothing. -/
def delete_note (doc : NotesDoc) (noteId : Int) : Except ErrKind NotesDoc :=
  let filtered := doc.notes.filter (fun n => !(n.id = noteId))
  if filtered.length = doc.notes.length then .error .notFound
  else .ok { doc with notes := filtered }

/-- `class ChatMessage` (main.py lines 145-147). -/
structure ChatMessage where
  role : String
  text : String
deriving DecidableEq, Repr

/-- The chat document `{"messages": [...]}` (main.py line 68). -/
structure ChatDoc where
  messages : List ChatMessage
deriving DecidableEq, Repr

/-- `add_chat_message` handler (main.py lines 417-432), parameterised by
the external completion call `get_ai_chat_completion`: append the posted
message, and when its role is "user" additionally append an assistant
message whose text is produced by the completion call. -/
def add_chat_message (aiCompletion : String → String) (doc : ChatDoc)
    (role text : String) : ChatDoc :=
  let msgs := doc.messages ++ [⟨role, text⟩]
  let msgs2 := if role = "user" then msgs ++ [⟨"assistant", aiCompletion text⟩] else msgs
  ⟨msgs2⟩

/-- `class Massnahme` (main.py lines 155-158). -/
structure Massnahme where
  title : String
  description : String
  priority : String
deriving DecidableEq, Repr

/-- The action-items document with its three fixed categories
(main.py lines 193-218). -/
structure MassnahmenDoc where
  einmalige_massnahmen : List Massnahme
  arbeitsplatz : List Massnahme
  work_life_balance : List Massnahme
deriving DecidableEq, Repr

/-- The membership test
`category in ["einmalige_massnahmen", "arbeitsplatz", "work_life_balance"]`
(main.py lines 465, 499, 522). -/
def validMassnahmenCategory (category : String) : Bool :=
  category == "einmalige_massnahmen" || category == "arbeitsplatz" ||
    category == "work_life_balance"

/-- `data.get(category, [])` on the action-items document. -/
def getCategory (doc : MassnahmenDoc) (category : String) : List Massnahme :=
  if category = "einmalige_massnahmen" then doc.einmalige_massnahmen
  else if category = "arbeitsplatz" then doc.arbeitsplatz
  else if category = "work_life_balance" then doc.work_life_balance
  else []

/-- `data[category] = category_items` on the action-items document. -/
def setCategory (doc : MassnahmenDoc) (category : String) (items : List Massnahme) :
    MassnahmenDoc :=
  if category = "einmalige_massnahmen" then { doc with einmalige_massnahmen := items }
  else if category = "arbeitsplatz" then { doc with arbeitsplatz := items }
  else if category = "work_life_balance" then { doc with work_life_balance := items }
  else doc

/-- `create_massnahme` handler (main.py lines 497-507): reject an
invalid category with 400 before reading anything; otherwise append. -/
def create_massnahme (doc : MassnahmenDoc) (category : String) (m : Massnahme) :
    Except ErrKind MassnahmenDoc :=
  if validMassnahmenCategory category = false then .error .invalidCategory
  else .ok (setCategory doc category (getCategory doc category ++ [m]))

/-- `update_massnahme` handler (main.py lines 463-477): invalid category
→ 400; index outside `[0, len)` → 404; otherwise replace in place. -/
def update_massnahme (doc : MassnahmenDoc) (category : String) (index : Int)
    (m : Massnahme) : Except ErrKind MassnahmenDoc :=
  if validMassnahmenCategory category = false then .error .invalidCategory
  else
    let items := getCategory doc category
    if index < 0 ∨ (items.length : Int) ≤ index then .error .notFound
    else .ok (setCategory doc category (items.set index.toNat m))

/-- `delete_massnahme` handler (main.py lines 520-534): invalid category
→ 400; index outside `[0, len)` → 404; otherwise delete the entry,
shifting later indices down. -/
def delete_massnahme (doc : MassnahmenDoc) (category : String) (index : Int) :
    Except ErrKind MassnahmenDoc :=
  if validMassnahmenCategory category = false then .error .invalidCategory
  else
    let items := getCategory doc category
    if index < 0 ∨ (items.length : Int) ≤ index then .error .notFound
    else .ok (setCategory doc category (items.eraseIdx index.toNat))

/-- A JSON value as `json.loads` produces it.  JSON numbers are
modelled as integers; no property below involves a non-integral
number. -/
inductive JVal where
  | jnull
  | jbool (b : Bool)
  | jnum (n : Int)
  | jstr (s : String)
  | jarr (items : List JVal)
  | jobj (fields : List (String × JVal))

/-- `isinstance(x, dict)`. -/
def isDict : JVal → Bool
  | .jobj _ => true
  | _ => false

/-- The observable state of one JSON file as the `_read_*` helpers see
it: missing, whitespace-only, unparseable, or parsed to a JSON value.
(`_ensure_file_exists` fills a missing file with the default content, so
a read after `absent` sees the default document.) -/
inductive FileState where
  | absent
  | emptyText
  | malformed
  | parsed (v : JVal)

/-- `_read_events` (main.py lines 71-86), composed with
`_ensure_file_exists`: a missing, empty or unparseable file and a
non-dict top level all yield the empty mapping, never an error (the bare
`except` returns `{}`); a dict is normalised by keeping only list-valued
days and only dict-shaped entries inside them. -/
def read_events : FileState → List (String × List JVal)
  | .absent => []
  | .emptyText => []
  | .malformed => []
  | .parsed (.jobj fields) =>
      fields.filterMap (fun p =>
        match p.2 with
        | .jarr items => some (p.1, items.filter isDict)
        | _ => none)
  | .parsed _ => []

/-- Python `int(x)` applied to a JSON value; `none` models a raised
`TypeError`/`ValueError` (caught by `_read_notes`' bare `except`).
`int` of a decimal string is approximated by `String.toInt?`. -/
def pyInt : JVal → Option Int
  | .jnum n => some n
  | .jbool b => some (if b then 1 else 0)
  | .jstr s => s.toInt?
  | _ => none

/-- Python `str(x)` applied to a JSON value.  For composite values
Python renders a repr whose exact text no property below depends on; it
is abstracted by a marker. -/
def pyStr : JVal → String
  | .jnull => "None"
  | .jbool b => if b then "True" else "False"
  | .jnum n => toString n
  | .jstr s => s
  | .jarr _ => "<list>"
  | .jobj _ => "<dict>"

/-- One iteration of the notes normalisation loop (main.py lines
117-123): skip the item unless it is a dict containing "id" and "text";
`int(item["id"])` may raise (`.error`, making the whole read fall back
to the default document); a category outside the closed set — or of a
non-string type — is coerced to "personal". -/
def normNoteItem : JVal → Except Unit (Option Note)
  | .jobj fields =>
    (match lookupKey fields "id", lookupKey fields "text" with
     | some idv, some textv =>
        (match pyInt idv with
         | none => .error ()
         | some idn =>
           let catv := (lookupKey fields "category").getD (.jstr "personal")
           let category :=
             match catv with
             | .jstr s =>
                 if s = "personal" ∨ s = "work" ∨ s = "free time" then s else "personal"
             | _ => "personal"
           .ok (some { id := idn, text := pyStr textv, category := category }))
     | _, _ => .ok none)
  | _ => .ok none

/-- `_read_notes` (main.py lines 105-126), composed with
`_ensure_file_exists`: a missing, empty or unparseable file and a
non-dict top level all yield the default document `{notes: [], next_id: 1}`,
never an error; a dict is normalised field by field, and any exception
inside the loop (a non-convertible id) makes the whole read return the
default document. -/
def read_notes : FileState → NotesDoc
  | .absent => ⟨[], 1⟩
  | .emptyText => ⟨[], 1⟩
  | .malformed => ⟨[], 1⟩
  | .parsed (.jobj fields) =>
      let notesRaw := (lookupKey fields "notes").getD (.jarr [])
      let nextIdRaw := (lookupKey fields "next_id").getD (.jnum 1)
      let notesList := match notesRaw with | .jarr xs => xs | _ => []
      let nextId : Int :=
        match nextIdRaw with
        | .jnum n => n
        | .jbool b => if b then 1 else 0
        | _ => 1
      match notesList.mapM normNoteItem with
      | .error _ => ⟨[], 1⟩
      | .ok opts => ⟨opts.filterMap (fun x => x), nextId⟩
  | .parsed _ => ⟨[], 1⟩

theorem lookupKey_setKey_self {α : Type} (d : List (String × α)) (k : String) (v : α) :
    lookupKey (setKey d k v) k = some v := by
  induction d with
  | nil => simp [setKey, lookupKey]
  | cons p rest ih =>
    by_cases h : p.1 = k
    · simp [setKey, lookupKey, h]
    · simp only [setKey, h]
      simpa [lookupKey, h] using ih

theorem lookupKey_setKey_other {α : Type} (d : List (String × α)) (k k' : String) (v : α)
    (hne : k' ≠ k) : lookupKey (setKey d k v) k' = lookupKey d k' :=
  by
  induction d with
  | nil => simp [setKey, lookupKey, Ne.symm hne]
  | cons p rest ih =>
    by_cases h : p.1 = k
    · simp [setKey, lookupKey, h, Ne.symm hne]
    · simp only [setKey, h]
      by_cases h2 : p.1 = k'
      · simp [lookupKey, h2]
      · simpa [lookupKey, h2] using ih

theorem lookupKey_removeKey_self {α : Type} (d : List (String × α)) (k : String) :
    lookupKey (removeKey d k) k = none := by
  induction d with
  | nil => simp [removeKey, lookupKey]
  | cons p rest ih =>
    by_cases h : p.1 = k
    · simpa [removeKey, h] using ih
    · simp only [removeKey, List.filter] at ih ⊢
      simp [h, lookupKey, ih]

theorem lookupKey_removeKey_other {α : Type} (d : List (String × α)) (k k' : String)
    (hne : k' ≠ k) : lookupKey (removeKey d k) k' = lookupKey d k' := by
  induction d with
  | nil => simp [removeKey, lookupKey]
  | cons p rest ih =>
    by_cases h : p.1 = k
    · have hpk : p.1 ≠ k' := by rw [h]; exact fun hh => hne hh.symm
      simp only [removeKey, List.filter, h] at ih ⊢
      simpa [lookupKey, hpk] using ih
    · simp only [removeKey, List.filter, h] at ih ⊢
      by_cases h2 : p.1 = k'
      · simp [lookupKey, h2]
      · simpa [lookupKey, h2] using ih

theorem updateFirst_of_none (notes : List Note) (i : Int) (t c : String)
    (h : ∀ n ∈ notes, n.id ≠ i) : updateFirst notes i t c = (notes, false) := by
  induction notes with
  | nil => rfl
  | cons n rest ih =>
    have hn : ¬ n.id = i := h n (List.mem_cons_self n rest)
    have ih2 := ih (fun m hm => h m (List.mem_cons_of_mem n hm))
    simp [updateFirst, hn, ih2]

theorem updateFirst_found (pre : List Note) (n : Note) (post : List Note) (i : Int)
    (t c : String) (hpre : ∀ m ∈ pre, m.id ≠ i) (hn : n.id = i) :
    updateFirst (pre ++ n :: post) i t c =
      (pre ++ { n with text := t, category := c } :: post, true) := by
  induction pre with
  | nil => simp [updateFirst, hn]
  | cons m rest ih =>
    have hm : ¬ m.id = i := hpre m (List.mem_cons_self m rest)
    have ih2 := ih (fun m2 hm2 => hpre m2 (List.mem_cons_of_mem m hm2))
    simp [updateFirst, hm, ih2]

theorem update_note_next_id (doc : NotesDoc) (i : Int) (t c : String) (d2 : NotesDoc)
    (h : update_note doc i t c = .ok d2) : d2.next_id = doc.next_id := by
  simp only [update_note] at h
  split at h
  · cases h; rfl
  · cases h

theorem delete_note_next_id (doc : NotesDoc) (i : Int) (d2 : NotesDoc)
    (h : delete_note doc i = .ok d2) : d2.next_id = doc.next_id := by
  simp only [delete_note] at h
  split at h
  · cases h
  · cases h; rfl

theorem length_filter_lt {α : Type} (p : α → Bool) (l : List α) (x : α)
    (hx : x ∈ l) (hpx : p x = false) : (l.filter p).length < l.length := by
  induction l with
  | nil => cases hx
  | cons y rest ih =>
    rcases List.mem_cons.mp hx with rfl | hmem
    · rw [List.filter_cons, hpx]
      exact Nat.lt_succ_of_le (List.length_filter_le p rest)
    · rw [List.filter_cons]
      cases hp : p y
      · simpa using Nat.lt_succ_of_lt (ih hmem)
      · simpa using Nat.succ_lt_succ (ih hmem)


/-- Claim C1: for an `add_event(day, e)` call with `e.hour` in `[0,23]`
and `e.duration` in `[1,24]`, a conflict with an existing event
`(s, s+d)` in the day's stored sequence exists iff
`e.hour < s+d` and `e.hour+e.duration > s` (half-open intervals); on a
conflict the call fails with the conflict kind (and writes nothing, an
`.error` result being raised before `_write_events`); otherwise `e` is
appended at the end of the day's sequence and every other day is left
untouched. -/
theorem C1_add_event_overlap_spec (doc : EventsDoc) (day : String) (e : Event)
    (hh : 0 ≤ e.hour ∧ e.hour ≤ 23) (hd : 1 ≤ e.duration ∧ e.duration ≤ 24) :
    (hasConflict e ((lookupKey doc day).getD []) = true ↔
      ∃ ex ∈ (lookupKey doc day).getD [],
        e.hour < ex.hour + ex.duration ∧ e.hour + e.duration > ex.hour)
    ∧ (hasConflict e ((lookupKey doc day).getD []) = true →
        add_event doc day e = .error .conflict)
    ∧ (hasConflict e ((lookupKey doc day).getD []) = false →
        ∃ doc2, add_event doc day e = .ok doc2
          ∧ lookupKey doc2 day = some ((lookupKey doc day).getD [] ++ [e])
          ∧ ∀ d, d ≠ day → lookupKey doc2 d = lookupKey doc d) := by
  refine ⟨?_, ?_, ?_⟩
  · simp [hasConflict, List.any_eq_true]
  · intro h
    simp [add_event, h]
  · intro h
    refine ⟨setKey doc day ((lookupKey doc day).getD [] ++ [e]), ?_, ?_, ?_⟩
    · simp [add_event, h]
    · exact lookupKey_setKey_self doc day _
    · intro d hd2
      exact lookupKey_setKey_other doc day d _ hd2

/-- Witness for C1 at the spec's own example: adding `hour=9, duration=1`
to a Monday already containing `hour=8, duration=1` succeeds (adjacent
events do not conflict). -/
theorem C1_add_event_witness :
    ∃ doc2,
      add_event [("Monday", [⟨"A", "", 8, 1⟩])] "Monday" ⟨"B", "", 9, 1⟩ = .ok doc2
        ∧ lookupKey doc2 "Monday" =
            some ((lookupKey [("Monday", [⟨"A", "", 8, 1⟩])] "Monday").getD [] ++
              [⟨"B", "", 9, 1⟩])
        ∧ ∀ d, d ≠ "Monday" →
            lookupKey doc2 d = lookupKey [("Monday", [⟨"A", "", 8, 1⟩])] d :=
  (C1_add_event_overlap_spec [("Monday", [⟨"A", "", 8, 1⟩])] "Monday" ⟨"B", "", 9, 1⟩
    (by decide) (by decide)).2.2 (by decide)

/-- Claim C2 (refuted; the code loses the lock between read and write):
two concurrent `add_event` calls for the same day with mutually
overlapping candidate intervals `[8,10)` and `[9,10)`, scheduled
read₁ ; read₂ ; write₁ ; write₂ — a schedule the per-operation
`_file_lock` permits — BOTH return success, although the intervals
conflict; moreover the second full-file write silently discards the
first event.  The claim says at most one commits and the other observes
the conflict kind against the first's committed state. -/
theorem C2_race_double_commit :
    (add_event_race [] "Monday" ⟨"A", "", 8, 2⟩ ⟨"B", "", 9, 1⟩).1 =
        .ok [("Monday", [⟨"A", "", 8, 2⟩])]
    ∧ (add_event_race [] "Monday" ⟨"A", "", 8, 2⟩ ⟨"B", "", 9, 1⟩).2.1 =
        .ok [("Monday", [⟨"B", "", 9, 1⟩])]
    ∧ (add_event_race [] "Monday" ⟨"A", "", 8, 2⟩ ⟨"B", "", 9, 1⟩).2.2 =
        [("Monday", [⟨"B", "", 9, 1⟩])]
    ∧ hasConflict ⟨"B", "", 9, 1⟩ [⟨"A", "", 8, 2⟩] = true := by
  refine ⟨rfl, rfl, rfl, rfl⟩

/-- Claim C3 (refuted): a `createNote` call whose category is outside
the closed set is NOT accepted with the category coerced to "personal";
the pydantic pattern `^(personal|work|free time)$` on
`CreateNoteRequest` rejects the request before the handler runs, so the
call fails and nothing resembling a coerced note is stored. -/
theorem C3_invalid_category_rejected_counterexample :
    create_note_endpoint ⟨[], 1⟩ "hello" "sonstiges" = .error .validationError ∧
    ¬ ∃ d2, create_note_endpoint ⟨[], 1⟩ "hello" "sonstiges" = .ok d2 := by
  refine ⟨rfl, ?_⟩
  rintro ⟨d2, h⟩
  rw [show create_note_endpoint ⟨[], 1⟩ "hello" "sonstiges" = .error .validationError
    from rfl] at h
  exact Except.noConfusion h

/-- Claim C3 as amended: a `createNote` call whose category is outside
the closed set `personal | work | free time` is rejected with a
validation error (HTTP 422) by the request model and stores nothing. -/
theorem C3_create_note_invalid_category_rejected (doc : NotesDoc) (text category : String)
    (h : validNoteCategory category = false) :
    create_note_endpoint doc text category = .error .validationError := by
  simp [create_note_endpoint, createNoteValid, h]

/-- Witness for the amended C3 at a concrete invalid category. -/
theorem C3_create_note_witness :
    create_note_endpoint ⟨[], 5⟩ "x" "invalid" = .error .validationError :=
  C3_create_note_invalid_category_rejected ⟨[], 5⟩ "x" "invalid" (by decide)

/-- Claim C4 (refuted): posting a "user" message appends TWO messages in
one `add_chat_message` call — the user message and an assistant reply —
and the reply text is produced by the completion call inside the handler
itself (the result depends on the completion function), contradicting
"appends exactly one message … composed above the core, never performed
inside the append operation itself". -/
theorem C4_user_message_double_append_counterexample :
    (add_chat_message (fun _ => "reply") ⟨[]⟩ "user" "hi").messages =
      [⟨"user", "hi"⟩, ⟨"assistant", "reply"⟩]
    ∧ (add_chat_message (fun _ => "reply") ⟨[]⟩ "user" "hi").messages.length ≠ 1
    ∧ add_chat_message (fun _ => "X") ⟨[]⟩ "user" "hi" ≠
        add_chat_message (fun _ => "Y") ⟨[]⟩ "user" "hi" := by
  refine ⟨rfl, by decide, ?_⟩
  intro h
  have h2 := congrArg (fun d => d.messages) h
  simp [add_chat_message] at h2

/-- Claim C4 as amended: `add_chat_message` appends exactly one message
when the role is "assistant" (or any non-"user" role), but for role
"user" it appends two — the posted message followed by an assistant
message whose text comes from the completion call made inside the
handler. -/
theorem C4_append_spec (aiCompletion : String → String) (doc : ChatDoc)
    (role text : String) (hrole : role ≠ "user") :
    (add_chat_message aiCompletion doc role text).messages =
        doc.messages ++ [⟨role, text⟩]
    ∧ (add_chat_message aiCompletion doc "user" text).messages =
        doc.messages ++ [⟨"user", text⟩, ⟨"assistant", aiCompletion text⟩] := by
  constructor
  · simp [add_chat_message, hrole]
  · simp [add_chat_message]

/-- Witness for the amended C4 at role "assistant". -/
theorem C4_append_witness :
    (add_chat_message (fun _ => "r") ⟨[]⟩ "assistant" "ok").messages =
        ([] : List ChatMessage) ++ [⟨"assistant", "ok"⟩]
    ∧ (add_chat_message (fun _ => "r") ⟨[]⟩ "user" "ok").messages =
        ([] : List ChatMessage) ++ [⟨"user", "ok"⟩, ⟨"assistant", "r"⟩] :=
  C4_append_spec (fun _ => "r") ⟨[]⟩ "assistant" "ok" (by decide)

/-- Claim C5: `next_id` never decreases across create/update/delete, a
`createNote` stores the current `next_id` and increments it, and two
`createNote` calls yield strictly increasing ids even when a
`deleteNote` of the first id happens in between (ids are never
reused). -/
theorem C5_note_id_allocation_spec (d0 : NotesDoc) (t c t2 c2 : String) (i : Int)
    (d2 : NotesDoc) (hdel : delete_note (create_note d0 t c) i = .ok d2) :
    (create_note d0 t c).next_id = d0.next_id + 1
    ∧ (create_note d0 t c).notes.getLast? = some ⟨d0.next_id, t, c⟩
    ∧ d2.next_id = d0.next_id + 1
    ∧ (create_note d2 t2 c2).notes.getLast? = some ⟨d0.next_id + 1, t2, c2⟩
    ∧ (create_note d2 t2 c2).next_id = d0.next_id + 2
    ∧ d0.next_id < d0.next_id + 1
    ∧ (∀ da i2 t3 c3 d3, update_note da i2 t3 c3 = .ok d3 → d3.next_id = da.next_id)
    ∧ (∀ da i2 d3, delete_note da i2 = .ok d3 → d3.next_id = da.next_id) := by
  have h2 : d2.next_id = d0.next_id + 1 := by
    rw [delete_note_next_id _ _ _ hdel]
    rfl
  refine ⟨rfl, ?_, h2, ?_, ?_, by omega, ?_, ?_⟩
  · simp [create_note]
  · simp [create_note, h2]
  · simp [create_note, h2]
    omega
  · intro da i2 t3 c3 d3 h
    exact update_note_next_id da i2 t3 c3 d3 h
  · intro da i2 d3 h
    exact delete_note_next_id da i2 d3 h

/-- Witness for C5: create on the empty document, delete the note just
created, create again — the second id is 2, strictly above the first
id 1. -/
theorem C5_note_id_witness :
    (create_note ⟨[], 1⟩ "a" "personal").next_id = 1 + 1
    ∧ (create_note ⟨[], 1⟩ "a" "personal").notes.getLast? = some ⟨1, "a", "personal"⟩
    ∧ (⟨[], 2⟩ : NotesDoc).next_id = 1 + 1
    ∧ (create_note ⟨[], 2⟩ "b" "work").notes.getLast? = some ⟨1 + 1, "b", "work"⟩
    ∧ (create_note ⟨[], 2⟩ "b" "work").next_id = 1 + 2
    ∧ (1 : Int) < 1 + 1
    ∧ (∀ da i2 t3 c3 d3, update_note da i2 t3 c3 = .ok d3 → d3.next_id = da.next_id)
    ∧ (∀ da i2 d3, delete_note da i2 = .ok d3 → d3.next_id = da.next_id) :=
  C5_note_id_allocation_spec ⟨[], 1⟩ "a" "personal" "b" "work" 1 ⟨[], 2⟩ rfl

/-- Claim C6: `delete_event(day, index)` fails with the not-found kind
when the day is absent or the index is outside `[0, len)` (writing
nothing); otherwise it removes exactly the entry at `index`, drops the
day key entirely when its sequence becomes empty, leaves all other days
unchanged, and never leaves an empty day entry behind. -/
theorem C6_delete_event_spec (doc : EventsDoc) (day : String) (index : Int)
    (hne : ∀ d l3, lookupKey doc d = some l3 → l3 ≠ []) :
    (lookupKey doc day = none → delete_event doc day index = .error .notFound)
    ∧ (∀ l, lookupKey doc day = some l → (index < 0 ∨ (l.length : Int) ≤ index) →
        delete_event doc day index = .error .notFound)
    ∧ (∀ l, lookupKey doc day = some l → 0 ≤ index → index < (l.length : Int) →
        ∃ doc2, delete_event doc day index = .ok doc2
          ∧ (l.length = 1 → lookupKey doc2 day = none)
          ∧ (1 < l.length → lookupKey doc2 day = some (l.eraseIdx index.toNat))
          ∧ (∀ d, d ≠ day → lookupKey doc2 d = lookupKey doc d)
          ∧ (∀ d l2, lookupKey doc2 d = some l2 → l2 ≠ [])) := by
  refine ⟨?_, ?_, ?_⟩
  · intro h
    simp [delete_event, h]
  · intro l hl hrange
    simp only [delete_event, hl]
    rw [if_pos hrange]
  · intro l hl h0 hlt
    have htoNat : index.toNat < l.length := by omega
    have hlen : (l.eraseIdx index.toNat).length + 1 = l.length :=
      List.length_eraseIdx_add_one htoNat
    simp only [delete_event, hl]
    rw [if_neg (by omega)]
    by_cases hzero : (l.eraseIdx index.toNat).length = 0
    · rw [if_pos hzero]
      refine ⟨removeKey doc day, rfl, ?_, ?_, ?_, ?_⟩
      · intro _
        exact lookupKey_removeKey_self doc day
      · intro hgt
        omega
      · intro d hd
        exact lookupKey_removeKey_other doc day d hd
      · intro d l2 hl2
        by_cases hdday : d = day
        · subst hdday
          rw [lookupKey_removeKey_self] at hl2
          cases hl2
        · rw [lookupKey_removeKey_other doc day d hdday] at hl2
          exact hne d l2 hl2
    · rw [if_neg hzero]
      refine ⟨setKey doc day (l.eraseIdx index.toNat), rfl, ?_, ?_, ?_, ?_⟩
      · intro hone
        omega
      · intro _
        exact lookupKey_setKey_self doc day _
      · intro d hd
        exact lookupKey_setKey_other doc day d _ hd
      · intro d l2 hl2
        by_cases hdday : d = day
        · subst hdday
          rw [lookupKey_setKey_self] at hl2
          cases hl2
          intro hcon
          rw [hcon] at hzero
          simp at hzero
        · rw [lookupKey_setKey_other doc day d _ hdday] at hl2
          exact hne d l2 hl2

/-- Witness for C6 at the spec's own example: deleting the only event of
a day removes the day key entirely. -/
theorem C6_delete_event_witness :
    ∃ doc2, delete_event [("Monday", [⟨"A", "", 8, 1⟩])] "Monday" 0 = .ok doc2
      ∧ (([⟨"A", "", 8, 1⟩] : List Event).length = 1 → lookupKey doc2 "Monday" = none)
      ∧ (1 < ([⟨"A", "", 8, 1⟩] : List Event).length →
          lookupKey doc2 "Monday" =
            some (([⟨"A", "", 8, 1⟩] : List Event).eraseIdx (0 : Int).toNat))
      ∧ (∀ d, d ≠ "Monday" →
          lookupKey doc2 d = lookupKey [("Monday", [⟨"A", "", 8, 1⟩])] d)
      ∧ (∀ d l2, lookupKey doc2 d = some l2 → l2 ≠ []) := by
  refine (C6_delete_event_spec [("Monday", [⟨"A", "", 8, 1⟩])] "Monday" 0 ?_).2.2
    [⟨"A", "", 8, 1⟩] rfl (by decide) (by decide)
  intro d l3 h
  by_cases hd : "Monday" = d
  · simp only [lookupKey, if_pos hd] at h
    cases h
    simp
  · simp only [lookupKey, if_neg hd] at h
    cases h

/-- Claim C7: `_read_events` and `_read_notes` return the empty default
document — and, being total functions, never propagate an error — when
the file is absent, whitespace-only, malformed JSON, or parses to
something other than an object. -/
theorem C7_lenient_load_spec (v : JVal) (hv : isDict v = false) :
    read_events .absent = [] ∧ read_events .emptyText = [] ∧ read_events .malformed = []
    ∧ read_events (.parsed v) = []
    ∧ read_notes .absent = ⟨[], 1⟩ ∧ read_notes .emptyText = ⟨[], 1⟩
    ∧ read_notes .malformed = ⟨[], 1⟩ ∧ read_notes (.parsed v) = ⟨[], 1⟩ := by
  cases v <;> simp_all [isDict, read_events, read_notes]

/-- Witness for C7 at a concrete non-object top level (a JSON array). -/
theorem C7_lenient_load_witness :
    read_events .absent = [] ∧ read_events .emptyText = [] ∧ read_events .malformed = []
    ∧ read_events (.parsed (.jarr [])) = []
    ∧ read_notes .absent = ⟨[], 1⟩ ∧ read_notes .emptyText = ⟨[], 1⟩
    ∧ read_notes .malformed = ⟨[], 1⟩ ∧ read_notes (.parsed (.jarr [])) = ⟨[], 1⟩ :=
  C7_lenient_load_spec (.jarr []) rfl

/-- Claim C8: `update_note` on an id no stored note has fails with the
not-found kind (writing nothing, so the persisted sequence is
unchanged); on a stored id it rewrites `text`/`category` of the first
matching note in place, preserving its position and id and every other
note. -/
theorem C8_update_note_spec (doc : NotesDoc) (noteId : Int) (text category : String) :
    ((∀ n ∈ doc.notes, n.id ≠ noteId) →
        update_note doc noteId text category = .error .notFound)
    ∧ (∀ pre n post, doc.notes = pre ++ n :: post → n.id = noteId →
        (∀ m ∈ pre, m.id ≠ noteId) →
        update_note doc noteId text category =
          .ok ⟨pre ++ { n with text := text, category := category } :: post,
            doc.next_id⟩) := by
  constructor
  · intro h
    simp [update_note, updateFirst_of_none doc.notes noteId text category h]
  · intro pre n post hshape hid hpre
    simp [update_note, hshape, updateFirst_found pre n post noteId text category hpre hid]

/-- Witness for C8: updating a missing id 5 fails; updating the stored
id 1 rewrites the note in place. -/
theorem C8_update_note_witness :
    update_note ⟨[⟨1, "a", "personal"⟩], 2⟩ 5 "x" "work" = .error .notFound ∧
    update_note ⟨[⟨1, "a", "personal"⟩], 2⟩ 1 "x" "work" =
      .ok ⟨[⟨1, "x", "work"⟩], 2⟩ := by
  constructor
  · exact (C8_update_note_spec ⟨[⟨1, "a", "personal"⟩], 2⟩ 5 "x" "work").1 (by decide)
  · have h := (C8_update_note_spec ⟨[⟨1, "a", "personal"⟩], 2⟩ 1 "x" "work").2
      [] ⟨1, "a", "personal"⟩ [] rfl rfl (by simp)
    simpa using h

/-- Claim C9: every action-item create, update or delete whose category
string is outside the fixed three-element set fails with the
invalid-category kind; the `.error` result is raised before the
document is even read, so no category's sequence is mutated. -/
theorem C9_invalid_category_spec (doc : MassnahmenDoc) (category : String)
    (index : Int) (m : Massnahme) (h : validMassnahmenCategory category = false) :
    create_massnahme doc category m = .error .invalidCategory
    ∧ update_massnahme doc category index m = .error .invalidCategory
    ∧ delete_massnahme doc category index = .error .invalidCategory := by
  refine ⟨?_, ?_, ?_⟩ <;> simp [create_massnahme, update_massnahme, delete_massnahme, h]

/-- Witness for C9 at a concrete invalid category. -/
theorem C9_invalid_category_witness :
    create_massnahme ⟨[], [], []⟩ "bogus" ⟨"t", "d", "hoch"⟩ = .error .invalidCategory
    ∧ update_massnahme ⟨[], [], []⟩ "bogus" 0 ⟨"t", "d", "hoch"⟩ = .error .invalidCategory
    ∧ delete_massnahme ⟨[], [], []⟩ "bogus" 0 = .error .invalidCategory :=
  C9_invalid_category_spec ⟨[], [], []⟩ "bogus" 0 ⟨"t", "d", "hoch"⟩ (by decide)

/-- Claim C10: on a document with duplicate ids (possible only through a
corrupted or externally written file), `update_note` rewrites only the
FIRST note carrying the id — the later duplicate keeps its text and
category — while `delete_note` removes EVERY note carrying the id in a
single call. -/
theorem C10_duplicate_note_ids_spec (doc : NotesDoc) (i : Int) (t c : String)
    (pre mid post : List Note) (n1 n2 : Note)
    (hshape : doc.notes = pre ++ n1 :: (mid ++ n2 :: post))
    (h1 : n1.id = i) (h2 : n2.id = i) (hpre : ∀ m ∈ pre, m.id ≠ i) :
    update_note doc i t c =
        .ok ⟨pre ++ { n1 with text := t, category := c } :: (mid ++ n2 :: post),
          doc.next_id⟩
    ∧ delete_note doc i = .ok ⟨doc.notes.filter (fun n => !(n.id = i)), doc.next_id⟩
    ∧ (∀ d2, delete_note doc i = .ok d2 → ∀ n ∈ d2.notes, n.id ≠ i) := by
  have hmem : n1 ∈ doc.notes := by
    rw [hshape]
    simp
  have hlt : (doc.notes.filter (fun n => !(n.id = i))).length < doc.notes.length :=
    length_filter_lt _ _ n1 hmem (by simp [h1])
  have hdel : delete_note doc i =
      .ok ⟨doc.notes.filter (fun n => !(n.id = i)), doc.next_id⟩ := by
    simp only [delete_note]
    rw [if_neg (Nat.ne_of_lt hlt)]
  refine ⟨?_, hdel, ?_⟩
  · simp [update_note, hshape,
      updateFirst_found pre n1 (mid ++ n2 :: post) i t c hpre h1]
  · intro d2 hd2 n hn
    rw [hdel] at hd2
    cases hd2
    have hkeep := List.of_mem_filter hn
    simpa using hkeep

/-- Witness for C10 on a document holding two notes with id 1: the
update rewrites only the first, the delete removes both. -/
theorem C10_duplicate_note_ids_witness :
    update_note ⟨[⟨1, "a", "personal"⟩, ⟨1, "b", "work"⟩], 2⟩ 1 "x" "free time" =
        .ok ⟨[⟨1, "x", "free time"⟩, ⟨1, "b", "work"⟩], 2⟩
    ∧ delete_note ⟨[⟨1, "a", "personal"⟩, ⟨1, "b", "work"⟩], 2⟩ 1 = .ok ⟨[], 2⟩
    ∧ (∀ d2, delete_note ⟨[⟨1, "a", "personal"⟩, ⟨1, "b", "work"⟩], 2⟩ 1 = .ok d2 →
        ∀ n ∈ d2.notes, n.id ≠ 1) := by
  have h := C10_duplicate_note_ids_spec ⟨[⟨1, "a", "personal"⟩, ⟨1, "b", "work"⟩], 2⟩ 1
    "x" "free time" [] [] [] ⟨1, "a", "personal"⟩ ⟨1, "b", "work"⟩ rfl rfl rfl
    (by simp)
  simpa using h


end Backend
